import Mathlib

/-!
Verification of the InternVerse backend (Flask + SQLAlchemy) against its
natural-language specification.

Shallow embedding notes:
* Python dicts parsed from JSON (or built as literal fallbacks) are modelled
  as records whose fields are `Option`-valued: `some v` means the key is
  present with value `v`, `none` means the key is absent.  A Python
  subscript `d[k]` on a missing key raises `KeyError`; we model that read
  as an `Option` bind, and an uncaught exception in a request handler as a
  `serverError` response that leaves the database unchanged (uncommitted
  session changes are rolled back by the framework teardown).
* Python floats (scores, progress) are modelled as rationals (`ℚ`).
* The external chat-completion call together with its JSON parsing is
  modelled as an oracle argument `ext : Option α`: `none` means the call or
  the parse failed (any exception), `some d` means it succeeded and parsed
  to `d`.  The boolean `cfg` models whether the OpenAI endpoint, key and
  deployment are all configured.  The Cosmos-DB mirror (`container`) is
  not configured in scope, so its branch is a no-op.
* Python `f"{x:.2f}"` / `f"{x:.1f}"` formatting is modelled by rounding the
  rational to 2 (resp. 1) decimal places; Python rounds half-to-even on the
  binary double while `round` here rounds half-up — no property proved
  below depends on a tie case.
-/

/-- A parsed internship-details dict (keys: title, description,
duration_weeks).  Source: `azure_services.generate_internship`. -/
structure InternshipDict where
  title : Option String
  description : Option String
  duration_weeks : Option Int
  deriving Repr, DecidableEq

/-- A parsed task-descriptor dict (keys: title, description, instructions,
difficulty, points).  Source: `azure_services.generate_tasks` /
`supervisor_service.generate_fallback_tasks`. -/
structure TaskDict where
  title : Option String
  description : Option String
  instructions : Option String
  difficulty : Option String
  points : Option Int
  deriving Repr, DecidableEq

/-- A parsed certificate dict.  The azure fallback uses the key
`skills_acquired`; a successful external parse may carry any keys, in
particular a `skills` key; we track both. -/
structure CertificateDict where
  title : Option String
  description : Option String
  skills_acquired : Option String
  skills : Option String
  deriving Repr, DecidableEq

/-- Two-digit zero padding for the fractional part of `{:.2f}`. -/
def padHundredths (n : Nat) : String :=
  if n < 10 then "0" ++ toString n else toString n

/-- Models Python `f"{x:.2f}"` on a rational (see file header): the
nearest-hundredth value `⌊100q + 1/2⌋` computed by integer floor division
on the numerator and denominator. -/
def fmt2 (q : ℚ) : String :=
  let c : Int := Int.fdiv (200 * q.num + q.den) (2 * (q.den : Int))
  let n := c.natAbs
  let sign := if c < 0 then "-" else ""
  sign ++ toString (n / 100) ++ "." ++ padHundredths (n % 100)

/-- Models Python `f"{x:.1f}"` on a rational (see file header): the
nearest-tenth value `⌊10q + 1/2⌋`. -/
def fmt1 (q : ℚ) : String :=
  let c : Int := Int.fdiv (20 * q.num + q.den) (2 * (q.den : Int))
  let n := c.natAbs
  let sign := if c < 0 then "-" else ""
  sign ++ toString (n / 10) ++ "." ++ toString (n % 10)

namespace azure_services

/-- The fallback internship dict, returned both when OpenAI is not
configured and when the API call or JSON parse fails
(`azure_services.generate_internship`, the two identical literals). -/
def fallback_internship (industry major interests : String) : InternshipDict :=
  { title := some (industry ++ " Virtual Internship")
    description := some ("A virtual internship experience in " ++ industry ++
      " tailored for " ++ major ++ " students with interests in " ++ interests ++
      ". You will work on realistic projects to build practical skills in this field.")
    duration_weeks := some 6 }

/-- `azure_services.generate_internship(industry, major, interests)`:
if OpenAI is unconfigured return the fallback; otherwise return the parsed
external response, or the (identical) fallback when the call/parse fails.
The Cosmos mirror branch is a no-op (no container configured). -/
def generate_internship (cfg : Bool) (ext : Option InternshipDict)
    (industry major interests : String) : InternshipDict :=
  if !cfg then
    fallback_internship industry major interests
  else
    match ext with
    | none => fallback_internship industry major interests
    | some d => d

/-- The default task list of `azure_services.generate_tasks` (the same
literal appears in the unconfigured branch, the API-error branch and the
outer exception branch): two medium tasks, plus an easy introduction task
when `week == 1`. -/
def default_tasks (industry : String) (week : Int) : List TaskDict :=
  let base : List TaskDict :=
    [ { title := some ("Week " ++ toString week ++ " Research Task")
        description := some ("Research current trends in the " ++ industry ++ " industry.")
        instructions := some ("Conduct research on recent developments in " ++ industry ++
          ". Write a 500-word report summarizing your findings.")
        difficulty := some "medium"
        points := some 100 },
      { title := some ("Week " ++ toString week ++ " Analysis Task")
        description := some ("Analyze a case study related to " ++ industry ++ ".")
        instructions := some ("Review the provided case study and write an analysis focusing on key issues and potential solutions.")
        difficulty := some "medium"
        points := some 120 } ]
  if week = 1 then
    base ++
      [ { title := some "Introduction Task"
          description := some ("Introduction to the " ++ industry ++ " industry.")
          instructions := some "Create a mind map of the key companies, technologies, and trends in this industry."
          difficulty := some "easy"
          points := some 80 } ]
  else base

/-- `azure_services.generate_tasks(internship_title, industry, major, week)`:
default tasks when unconfigured or on call/parse failure, otherwise the
parsed external list is returned as-is (no validation). -/
def generate_tasks (cfg : Bool) (ext : Option (List TaskDict))
    (_internship_title industry _major : String) (week : Int) : List TaskDict :=
  if !cfg then
    default_tasks industry week
  else
    match ext with
    | none => default_tasks industry week
    | some t => t

/-- The fallback certificate dict of `azure_services.generate_certificate`
for the unconfigured branch and the API-error branch (both carry the
score/task-count sentence).  Keys: title, description, skills_acquired —
there is no `skills` key. -/
def fallback_certificate (user_name internship_title industry : String)
    (tasks_completed : Int) (avg_score : ℚ) : CertificateDict :=
  { title := some ("Certificate of Completion: " ++ internship_title)
    description := some ("This is to certify that " ++ user_name ++
      " has successfully completed the " ++ internship_title ++
      " virtual internship program in " ++ industry ++
      " with an average score of " ++ fmt2 avg_score ++ "/100 across " ++
      toString tasks_completed ++ " tasks.")
    skills_acquired := some ("Industry knowledge, Professional communication, Problem-solving, Critical thinking, " ++
      industry ++ " analysis")
    skills := none }

/-- `azure_services.generate_certificate(user_name, internship_title,
industry, tasks_completed, avg_score)`: fallback when unconfigured or on
call/parse failure, otherwise the parsed external dict as-is. -/
def generate_certificate (cfg : Bool) (ext : Option CertificateDict)
    (user_name internship_title industry : String)
    (tasks_completed : Int) (avg_score : ℚ) : CertificateDict :=
  if !cfg then
    fallback_certificate user_name internship_title industry tasks_completed avg_score
  else
    match ext with
    | none => fallback_certificate user_name internship_title industry tasks_completed avg_score
    | some d => d

end azure_services

namespace supervisor_service

/-- `supervisor_service.generate_fallback_tasks(industry, week_number)`:
two medium tasks plus an easy introduction assignment when week 1. -/
def generate_fallback_tasks (industry : String) (week_number : Int) : List TaskDict :=
  let base : List TaskDict :=
    [ { title := some ("Week " ++ toString week_number ++ " Research Assignment")
        description := some ("Research current trends and best practices in the " ++ industry ++ " industry.")
        instructions := some ("Conduct research using industry publications, websites, and academic sources to identify current trends in " ++
          industry ++ ". Write a 500-word report summarizing your findings and highlighting 3-5 key developments that are shaping the industry today.")
        difficulty := some "medium"
        points := some 100 },
      { title := some ("Week " ++ toString week_number ++ " Analysis Project")
        description := some ("Analyze a case study or scenario related to " ++ industry ++ ".")
        instructions := some ("Review the provided materials and analyze the key challenges, opportunities, and decisions involved. Prepare a detailed analysis that includes your recommendations and the rationale behind them.")
        difficulty := some "medium"
        points := some 120 } ]
  if week_number = 1 then
    base ++
      [ { title := some "Industry Introduction Assignment"
          description := some ("Get familiar with the key aspects of the " ++ industry ++ " industry.")
          instructions := some "Create a mind map or structured overview of the major companies, technologies, roles, and current challenges in this industry. Include at least 3 examples in each category."
          difficulty := some "easy"
          points := some 80 } ]
  else base

/-- The industry-specific skills table of
`supervisor_service.generate_fallback_certificate`. -/
def industry_skills : List (String × String) :=
  [ ("Fintech", "Financial analysis, Digital payment systems, Regulatory compliance, Data-driven decision making, Financial technology tools"),
    ("Healthcare", "Healthcare data analysis, Medical information management, Healthcare compliance, Patient experience design, Health informatics"),
    ("Marketing", "Digital marketing strategy, Marketing analytics, Campaign management, Social media optimization, Content creation"),
    ("Technology & IT", "Software development, System architecture, Technical problem-solving, Code optimization, Development lifecycle management"),
    ("Business & Finance", "Financial modeling, Business analysis, Strategic planning, Risk assessment, Project management"),
    ("Education", "Instructional design, Curriculum development, Educational assessment, Learning technologies, Student engagement strategies"),
    ("Environmental Science & Sustainability", "Environmental analysis, Sustainability assessment, Conservation planning, Ecological research, Environmental policy analysis"),
    ("Media & Communications", "Media content creation, Public relations strategy, Audience engagement, Strategic communication, Media analytics"),
    ("Law & Government", "Legal research, Policy analysis, Regulatory compliance, Administrative procedures, Stakeholder communication"),
    ("Arts & Design", "Visual design principles, User experience design, Creative problem-solving, Design software proficiency, Brand identity development") ]

/-- `industry_skills.get(industry, default)` — dict lookup with default. -/
def skills_for (industry : String) : String :=
  match industry_skills.find? (fun p => p.1 = industry) with
  | some p => p.2
  | none => "Professional communication, Critical thinking, Problem-solving, Project management, Industry research"

/-- The `performance_level` conditional of
`supervisor_service.generate_fallback_certificate` (line 624). -/
def performance_level (avg_score : ℚ) : String :=
  if avg_score ≥ 90 then "excellent"
  else if avg_score ≥ 80 then "strong"
  else if avg_score ≥ 70 then "good"
  else "satisfactory"

/-- The description template of the supervisor fallback certificate, with
the interpolated performance level made explicit as an argument. -/
def cert_description (user_name internship_title industry level : String)
    (avg_score : ℚ) : String :=
  "This certifies that " ++ user_name ++ " has successfully completed the " ++
  internship_title ++ " virtual internship program in the " ++ industry ++
  " industry. Throughout this program, " ++ user_name ++ " demonstrated " ++
  level ++ " performance in completing professional tasks and projects, achieving an overall score of " ++
  fmt1 avg_score ++ "/100. This internship provided hands-on experience in real-world scenarios typical of the " ++
  industry ++ " field."

/-- `supervisor_service.generate_fallback_certificate(user_name,
internship_title, industry, avg_score)`. -/
def generate_fallback_certificate (user_name internship_title industry : String)
    (avg_score : ℚ) : CertificateDict :=
  { title := some ("Certificate of Completion: " ++ internship_title)
    description := some (cert_description user_name internship_title industry
      (performance_level avg_score) avg_score)
    skills_acquired := some (skills_for industry)
    skills := none }

end supervisor_service

namespace models

/-- `models.UserProfile` (nullable columns are `Option`; timestamps
dropped; `profile_completed` defaults false). -/
structure UserProfile where
  user_id : Nat
  full_name : Option String
  major : Option String
  university : Option String
  career_interests : Option String
  graduation_year : Option Int
  bio : Option String
  profile_completed : Bool
  deriving Repr, DecidableEq

/-- `models.Industry`. -/
structure Industry where
  id : Nat
  name : String
  description : String
  deriving Repr, DecidableEq

/-- `models.Company` (fields used by the handlers). -/
structure Company where
  id : Nat
  industry_id : Nat
  name : String
  deriving Repr, DecidableEq

/-- `models.InternshipTrack` (timestamps dropped; `progress` is a float,
modelled as `ℚ`). -/
structure InternshipTrack where
  id : Nat
  industry_id : Nat
  user_id : Nat
  company_id : Option Nat
  title : String
  description : String
  duration_weeks : Int
  status : String
  progress : ℚ
  deriving Repr, DecidableEq

/-- `models.Task` (timestamps/deadline dropped). -/
structure Task where
  id : Nat
  internship_id : Nat
  title : String
  description : String
  instructions : String
  difficulty : String
  points : Int
  status : String
  deriving Repr, DecidableEq

/-- `models.Submission`.  `evaluated` models `evaluated_at IS NOT NULL`. -/
structure Submission where
  id : Nat
  task_id : Nat
  user_id : Nat
  content : String
  file_urls : Option String
  score : Option ℚ
  feedback : Option String
  evaluated : Bool
  deriving Repr, DecidableEq

/-- `models.Certificate` (issued_at dropped). -/
structure Certificate where
  id : Nat
  internship_id : Nat
  user_id : Nat
  title : String
  description : String
  score : ℚ
  skills_acquired : String
  deriving Repr, DecidableEq

end models

/-- The relational store.  Rows are kept in insertion order (SQLAlchemy
auto-increment ids are drawn from `nextId`); `submitted_at` ordering
coincides with insertion order. -/
structure DB where
  profiles : List models.UserProfile
  industries : List models.Industry
  companies : List models.Company
  internships : List models.InternshipTrack
  tasks : List models.Task
  submissions : List models.Submission
  certificates : List models.Certificate
  nextId : Nat
  deriving Repr, DecidableEq

/-- `UserProfile.query.filter_by(user_id=uid).first()` — the
`current_user.profile` relationship. -/
def DB.findProfile (db : DB) (uid : Nat) : Option models.UserProfile :=
  db.profiles.find? (fun p => p.user_id == uid)

/-- `Industry.query.get(i)`. -/
def DB.findIndustry (db : DB) (i : Nat) : Option models.Industry :=
  db.industries.find? (fun x => x.id == i)

/-- `Company.query.get(i)`. -/
def DB.findCompany (db : DB) (i : Nat) : Option models.Company :=
  db.companies.find? (fun x => x.id == i)

/-- `InternshipTrack.query.get(i)` (`get_or_404` returns 404 on `none`). -/
def DB.findInternship (db : DB) (i : Nat) : Option models.InternshipTrack :=
  db.internships.find? (fun x => x.id == i)

/-- `Task.query.get(i)` (`get_or_404` returns 404 on `none`). -/
def DB.findTask (db : DB) (i : Nat) : Option models.Task :=
  db.tasks.find? (fun x => x.id == i)

/-- `Submission.query.get(i)` (`get_or_404` returns 404 on `none`). -/
def DB.findSubmission (db : DB) (i : Nat) : Option models.Submission :=
  db.submissions.find? (fun x => x.id == i)

/-- `Certificate.query.filter_by(internship_id=iid).first()`. -/
def DB.findCertificateByInternship (db : DB) (iid : Nat) : Option models.Certificate :=
  db.certificates.find? (fun c => c.internship_id == iid)

/-- Python f-string interpolation of a nullable column: `None` renders as
the string `"None"`. -/
def pyStr (o : Option String) : String := o.getD "None"

namespace auth

/-- The JSON body of `PUT /api/auth/profile`: `none` means the key is
absent from the body (bodies carrying an explicit JSON `null` are out of
scope). -/
structure ProfileBody where
  full_name : Option String
  major : Option String
  university : Option String
  career_interests : Option String
  graduation_year : Option Int
  bio : Option String
  deriving Repr, DecidableEq

/-- `data.get(key, profile.field)`: the body value when the key is
present, the existing column value otherwise. -/
def getOr {α : Type} (new old : Option α) : Option α :=
  match new with
  | some v => some v
  | none => old

/-- Response of `PUT /api/auth/profile`. -/
inductive ProfileResp where
  | updated (profile_completed : Bool)
  | serverError
  deriving Repr, DecidableEq

/-- The PUT branch of `auth.profile` (src/api/auth.py lines 128-149): every
field updated via `data.get(field, current)`, `profile_completed` set to
`True` unconditionally, then commit. -/
def profile_put (uid : Nat) (body : ProfileBody) (db : DB) : ProfileResp × DB :=
  match db.findProfile uid with
  | none => (.serverError, db)
  | some p =>
    let p' : models.UserProfile :=
      { p with
        full_name := getOr body.full_name p.full_name
        major := getOr body.major p.major
        university := getOr body.university p.university
        career_interests := getOr body.career_interests p.career_interests
        graduation_year := getOr body.graduation_year p.graduation_year
        bio := getOr body.bio p.bio
        profile_completed := true }
    let db' : DB :=
      { db with profiles := db.profiles.map (fun q => if q.user_id == uid then p' else q) }
    (.updated p'.profile_completed, db')

end auth

namespace tasks

/-- View of one submission in the `GET /api/tasks/<id>` payload. -/
structure SubmissionView where
  id : Nat
  content : String
  file_urls : Option String
  score : Option ℚ
  feedback : Option String
  deriving Repr, DecidableEq

/-- The `GET /api/tasks/<id>` payload (fields the handler serialises,
timestamps dropped). -/
structure TaskDetail where
  id : Nat
  internship_id : Nat
  internship_title : String
  industry : Option String
  title : String
  description : String
  instructions : String
  difficulty : String
  points : Int
  status : String
  submissions : List SubmissionView
  deriving Repr, DecidableEq

/-- Response of `GET /api/tasks/<id>`. -/
inductive GetTaskResp where
  | ok (detail : TaskDetail)
  | forbidden
  | notFound
  | serverError
  deriving Repr, DecidableEq

/-- `tasks.get_task` (src/api/tasks.py lines 10-64): `get_or_404`, owner
check via `task.internship.user_id`, then serialise the task with its
submissions (most recent first: insertion order reversed). -/
def get_task (uid tid : Nat) (db : DB) : GetTaskResp :=
  match db.findTask tid with
  | none => .notFound
  | some task =>
    match db.findInternship task.internship_id with
    | none => .serverError
    | some internship =>
      if internship.user_id ≠ uid then .forbidden
      else
        let subs := (db.submissions.filter
          (fun s => s.task_id == task.id && s.user_id == uid)).reverse
        .ok
          { id := task.id
            internship_id := task.internship_id
            internship_title := internship.title
            industry := (db.findIndustry internship.industry_id).map (·.name)
            title := task.title
            description := task.description
            instructions := task.instructions
            difficulty := task.difficulty
            points := task.points
            status := task.status
            submissions := subs.map (fun s =>
              { id := s.id, content := s.content, file_urls := s.file_urls,
                score := s.score, feedback := s.feedback }) }

/-- Response of `POST /api/tasks/<id>/submissions`. -/
inductive SubmitResp where
  | created (submission_id : Nat) (task_id : Nat)
  | forbidden
  | missingContent
  | notFound
  | serverError
  deriving Repr, DecidableEq

/-- `tasks.submit_task` (src/api/tasks.py lines 66-116): `get_or_404`,
owner check, `content` required, then insert a Submission row (score and
feedback null), set the task status to `"submitted"`, commit.  The
post-commit `evaluate_submission` dispatch is fire-and-forget and touches
no local state (unconfigured endpoint: logged no-op). -/
def submit_task (uid tid : Nat) (content : Option String)
    (file_urls : Option String) (db : DB) : SubmitResp × DB :=
  match db.findTask tid with
  | none => (.notFound, db)
  | some task =>
    match db.findInternship task.internship_id with
    | none => (.serverError, db)
    | some internship =>
      if internship.user_id ≠ uid then (.forbidden, db)
      else
        match content with
        | none => (.missingContent, db)
        | some c =>
          let sub : models.Submission :=
            { id := db.nextId, task_id := task.id, user_id := uid, content := c,
              file_urls := file_urls, score := none, feedback := none,
              evaluated := false }
          let db' : DB :=
            { db with
              tasks := db.tasks.map (fun t =>
                if t.id == task.id then { t with status := "submitted" } else t)
              submissions := db.submissions ++ [sub]
              nextId := db.nextId + 1 }
          (.created sub.id task.id, db')

/-- The `GET /api/tasks/submissions/<id>` payload. -/
structure SubmissionDetail where
  id : Nat
  task_id : Nat
  task_title : Option String
  content : String
  file_urls : Option String
  score : Option ℚ
  feedback : Option String
  is_evaluated : Bool
  deriving Repr, DecidableEq

/-- Response of `GET /api/tasks/submissions/<id>`. -/
inductive GetSubmissionResp where
  | ok (detail : SubmissionDetail)
  | forbidden
  | notFound
  deriving Repr, DecidableEq

/-- `tasks.get_submission` (src/api/tasks.py lines 118-148): `get_or_404`,
owner check via `submission.user_id`, serialise. -/
def get_submission (uid sid : Nat) (db : DB) : GetSubmissionResp :=
  match db.findSubmission sid with
  | none => .notFound
  | some s =>
    if s.user_id ≠ uid then .forbidden
    else
      .ok
        { id := s.id
          task_id := s.task_id
          task_title := (db.findTask s.task_id).map (·.title)
          content := s.content
          file_urls := s.file_urls
          score := s.score
          feedback := s.feedback
          is_evaluated := s.evaluated }

end tasks

namespace internships

/-- A task row to insert, read from a task descriptor dict in
`start_internship`: `Task(title=task_data['title'], ...)`.  A missing key
raises `KeyError`, modelled as `none`. -/
structure TaskRowData where
  title : String
  description : String
  instructions : String
  difficulty : String
  points : Int
  deriving Repr, DecidableEq

/-- Read the five required keys of a task descriptor in source order
(title, description, instructions, difficulty, points); `none` models the
`KeyError` raised by the first missing key. -/
def build_task (d : TaskDict) : Option TaskRowData :=
  match d.title, d.description, d.instructions, d.difficulty, d.points with
  | some t, some de, some ins, some df, some p =>
    some { title := t, description := de, instructions := ins,
           difficulty := df, points := p }
  | _, _, _, _, _ => none

/-- The task-creation loop of `start_internship`: build one row per
descriptor, aborting at the first descriptor with a missing key (the
`KeyError` propagates out of the loop). -/
def build_tasks : List TaskDict → Option (List TaskRowData)
  | [] => some []
  | d :: ds =>
    match build_task d, build_tasks ds with
    | some r, some rs => some (r :: rs)
    | _, _ => none

/-- Response of `POST /api/internships/start`. -/
inductive StartResp where
  | started (internship_id : Nat) (title : String) (duration_weeks : Int)
  | profileIncomplete
  | industryNotFound
  | companyNotFound
  | serverError
  deriving Repr, DecidableEq

/-- `internships.start_internship` (src/api/internships.py lines 67-159):
profile-completed gate, industry/company lookups, generate internship
details, insert the InternshipTrack row (flushed to obtain its id),
generate week-1 tasks, insert one Task row per descriptor with
status `"pending"`, then a single commit.  Any `KeyError` while reading
the generated dicts aborts the request before the commit, so the flushed
rows are rolled back and the store is unchanged. -/
def start_internship (cfg : Bool) (extInternship : Option InternshipDict)
    (extTasks : Option (List TaskDict)) (uid industry_id : Nat)
    (company_id : Option Nat) (db : DB) : StartResp × DB :=
  match db.findProfile uid with
  | none => (.serverError, db)
  | some profile =>
    if !profile.profile_completed then (.profileIncomplete, db)
    else
      match db.findIndustry industry_id with
      | none => (.industryNotFound, db)
      | some industry =>
        let companyLookup : Option (Option models.Company) :=
          match company_id with
          | none => some none
          | some cid =>
            match db.findCompany cid with
            | none => none
            | some c => some (some c)
        match companyLookup with
        | none => (.companyNotFound, db)
        | some company =>
          let details := azure_services.generate_internship cfg extInternship
            industry.name (pyStr profile.major) (pyStr profile.career_interests)
          match details.title, details.description, details.duration_weeks with
          | some title, some description, some duration =>
            let internship : models.InternshipTrack :=
              { id := db.nextId, industry_id := industry.id, user_id := uid,
                company_id := company.map (·.id), title := title,
                description := description, duration_weeks := duration,
                status := "active", progress := 0 }
            let task_dicts := azure_services.generate_tasks cfg extTasks
              title industry.name (pyStr profile.major) 1
            match build_tasks task_dicts with
            | none => (.serverError, db)
            | some rows =>
              let newTasks : List models.Task := rows.enum.map (fun p =>
                { id := db.nextId + 1 + p.1, internship_id := internship.id,
                  title := p.2.title, description := p.2.description,
                  instructions := p.2.instructions, difficulty := p.2.difficulty,
                  points := p.2.points, status := "pending" })
              let db' : DB :=
                { db with
                  internships := db.internships ++ [internship]
                  tasks := db.tasks ++ newTasks
                  nextId := db.nextId + 1 + rows.length }
              (.started internship.id internship.title internship.duration_weeks, db')
          | _, _, _ => (.serverError, db)

/-- View of one task in the `GET /api/internships/<id>` payload. -/
structure TaskView where
  id : Nat
  title : String
  difficulty : String
  points : Int
  status : String
  has_submission : Bool
  submission_score : Option ℚ
  deriving Repr, DecidableEq

/-- The `GET /api/internships/<id>` payload (fields the handler
serialises, timestamps dropped). -/
structure InternshipDetail where
  id : Nat
  title : String
  description : String
  industry_name : Option String
  company_name : Option String
  duration_weeks : Int
  status : String
  progress : ℚ
  tasks : List TaskView
  certificate_id : Option Nat
  deriving Repr, DecidableEq

/-- Response of `GET /api/internships/<id>`. -/
inductive GetInternshipResp where
  | ok (detail : InternshipDetail)
  | forbidden
  | notFound
  deriving Repr, DecidableEq

/-- `internships.get_internship` (src/api/internships.py lines 208-274):
`get_or_404`, owner check, then serialise the internship with its tasks
(each with its latest submission, i.e. the last inserted one) and
certificate id. -/
def get_internship (uid iid : Nat) (db : DB) : GetInternshipResp :=
  match db.findInternship iid with
  | none => .notFound
  | some internship =>
    if internship.user_id ≠ uid then .forbidden
    else
      let task_rows := db.tasks.filter (fun t => t.internship_id == internship.id)
      let task_list := task_rows.map (fun t =>
        let sub := (db.submissions.filter
          (fun s => s.task_id == t.id && s.user_id == uid)).getLast?
        { id := t.id, title := t.title, difficulty := t.difficulty,
          points := t.points, status := t.status,
          has_submission := sub.isSome,
          submission_score := sub.bind (·.score) : TaskView })
      .ok
        { id := internship.id
          title := internship.title
          description := internship.description
          industry_name := (db.findIndustry internship.industry_id).map (·.name)
          company_name := (internship.company_id.bind db.findCompany).map (·.name)
          duration_weeks := internship.duration_weeks
          status := internship.status
          progress := internship.progress
          tasks := task_list
          certificate_id := (db.findCertificateByInternship internship.id).map (·.id) }

/-- The join of src/api/internships.py lines 308-314: submissions joined
to their task, filtered to this internship, this user and a non-null
score. -/
def completed_submissions (db : DB) (uid iid : Nat) : List models.Submission :=
  db.submissions.filter (fun s =>
    db.tasks.any (fun t => s.task_id == t.id && t.internship_id == iid) &&
    s.user_id == uid && s.score.isSome)

/-- Lines 316-317: `avg_score = sum(...) / completed_count if
completed_count > 0 else 0`. -/
def avg_score (db : DB) (uid iid : Nat) : ℚ :=
  if 0 < (completed_submissions db uid iid).length then
    ((completed_submissions db uid iid).filterMap (·.score)).sum /
      ((completed_submissions db uid iid).length : ℚ)
  else 0

/-- Response of `POST /api/internships/<id>/complete`. -/
inductive CompleteResp where
  | completed (certificate_id : Nat) (certificate_title : String)
      (score : ℚ) (skills : String)
  | alreadyCertificate (certificate_id : Nat)
  | alreadyCompleted
  | forbidden
  | notFound
  | serverError
  deriving Repr, DecidableEq

/-- `internships.complete_internship` (src/api/internships.py lines
276-353): `get_or_404`, owner check, already-completed check (400),
existing-certificate check (200 with the existing id), aggregate scores,
generate the certificate dict, build the Certificate row — reading the
dict keys `title`, `description` and `skills` in source order — flip the
internship to completed/100%, commit.  A `KeyError` (in particular a
missing `skills` key) aborts before the commit and leaves the store
unchanged. -/
def complete_internship (cfg : Bool) (extCert : Option CertificateDict)
    (uid iid : Nat) (db : DB) : CompleteResp × DB :=
  match db.findInternship iid with
  | none => (.notFound, db)
  | some internship =>
    if internship.user_id ≠ uid then (.forbidden, db)
    else if internship.status = "completed" then (.alreadyCompleted, db)
    else
      match db.findCertificateByInternship internship.id with
      | some existing => (.alreadyCertificate existing.id, db)
      | none =>
        match db.findIndustry internship.industry_id, db.findProfile uid with
        | some industry, some profile =>
          let cs := completed_submissions db uid internship.id
          let completed_count := cs.length
          let avg := avg_score db uid internship.id
          let certificate_data := azure_services.generate_certificate cfg extCert
            (pyStr profile.full_name) internship.title industry.name
            (completed_count : Int) avg
          match certificate_data.title, certificate_data.description,
              certificate_data.skills with
          | some ctitle, some cdesc, some cskills =>
            let certificate : models.Certificate :=
              { id := db.nextId, internship_id := internship.id, user_id := uid,
                title := ctitle, description := cdesc, score := avg,
                skills_acquired := cskills }
            let db' : DB :=
              { db with
                internships := db.internships.map (fun it =>
                  if it.id == internship.id
                  then { it with status := "completed", progress := 100 }
                  else it)
                certificates := db.certificates ++ [certificate]
                nextId := db.nextId + 1 }
            (.completed certificate.id ctitle avg cskills, db')
          | _, _, _ => (.serverError, db)
        | _, _ => (.serverError, db)

end internships

/-- Schema conformance of one task descriptor as stated by the spec:
difficulty in {easy, medium, hard} and points in [50, 200]. -/
def goodTaskDict (d : TaskDict) : Bool :=
  (d.difficulty == some "easy" || d.difficulty == some "medium" ||
    d.difficulty == some "hard") &&
  (match d.points with
   | some p => decide (50 ≤ p) && decide (p ≤ 200)
   | none => false)

/-- A syntactically valid external task descriptor that violates the
spec's schema bounds. -/
def badTaskDict : TaskDict :=
  { title := some "Improvise", description := some "Do something",
    instructions := some "Figure it out", difficulty := some "extreme",
    points := some 999 }

/-- An external task descriptor missing the required `title` key. -/
def taskDictNoTitle : TaskDict :=
  { title := none, description := some "Do something",
    instructions := some "Figure it out", difficulty := some "medium",
    points := some 100 }

/-- A parseable external internship dict violating the spec bounds. -/
def badInternshipDict : InternshipDict :=
  { title := some "", description := some "", duration_weeks := some 99 }

/-- `leadMatch p l` holds when `p` is an initial segment of `l`. -/
def leadMatch : List Char → List Char → Bool
  | [], _ => true
  | _ :: _, [] => false
  | a :: as, b :: bs => a == b && leadMatch as bs

/-- `occursIn p l` holds when `p` occurs contiguously inside `l`. -/
def occursIn (p : List Char) : List Char → Bool
  | [] => leadMatch p []
  | b :: bs => leadMatch p (b :: bs) || occursIn p bs

/-- `containsWord s w` holds when the word `w` occurs in the string `s`. -/
def containsWord (s w : String) : Bool := occursIn w.data s.data

/-- Fixture: a user with a completed profile. -/
def profAlice : models.UserProfile :=
  { user_id := 1, full_name := some "Alice Lee", major := some "CS",
    university := some "State U", career_interests := some "AI",
    graduation_year := some 2026, bio := none, profile_completed := true }

/-- Fixture: a second user with a completed profile. -/
def profBob : models.UserProfile :=
  { user_id := 2, full_name := some "Bob Kim", major := some "Finance",
    university := some "State U", career_interests := some "Markets",
    graduation_year := some 2025, bio := none, profile_completed := true }

/-- Fixture: a seeded industry. -/
def indFintech : models.Industry :=
  { id := 1, name := "Fintech", description := "Financial technology" }

/-- An external certificate dict whose JSON happens to carry a `skills`
key (so that the row construction in `complete_internship` succeeds). -/
def extCertOK : CertificateDict :=
  { title := some "Certificate of Completion: Fintech Virtual Internship",
    description := some "Completed with distinction.",
    skills_acquired := none, skills := some "Analysis, Research" }

/-- Fixture: an active internship owned by user 1, no submissions yet. -/
def trackC1 : models.InternshipTrack :=
  { id := 20, industry_id := 1, user_id := 1, company_id := none,
    title := "Fintech Virtual Internship", description := "D",
    duration_weeks := 6, status := "active", progress := 0 }

/-- Fixture store for the double-completion scenario. -/
def dbC1 : DB :=
  { profiles := [profAlice], industries := [indFintech], companies := [],
    internships := [trackC1], tasks := [], submissions := [],
    certificates := [], nextId := 30 }

/-- Fixture store for the credentials-disabled lifecycle: a completed
profile and a seeded industry, nothing else. -/
def dbC2 : DB :=
  { profiles := [profAlice], industries := [indFintech], companies := [],
    internships := [], tasks := [], submissions := [], certificates := [],
    nextId := 10 }

/-- Step 1 of the disabled-credentials lifecycle: start an internship. -/
def startC2 := internships.start_internship false none none 1 1 none dbC2

/-- Step 2: submit the first generated task (id 11). -/
def submitC2 := tasks.submit_task 1 11 (some "My research report") none startC2.2

/-- Step 3: complete the internship. -/
def completeC2 := internships.complete_internship false none 1 10 submitC2.2

/-- Fixture: a task of internship 40 for the score-aggregation scenario. -/
def taskC3 (i : Nat) : models.Task :=
  { id := i, internship_id := 40, title := "T", description := "D",
    instructions := "I", difficulty := "medium", points := 100,
    status := "evaluated" }

/-- Fixture: a submission by user 1 with a given (possibly null) score. -/
def subC3 (i tid : Nat) (sc : Option ℚ) : models.Submission :=
  { id := i, task_id := tid, user_id := 1, content := "w", file_urls := none,
    score := sc, feedback := none, evaluated := sc.isSome }

/-- Fixture: the internship whose scores are aggregated. -/
def trackC3 : models.InternshipTrack :=
  { id := 40, industry_id := 1, user_id := 1, company_id := none,
    title := "Fintech Virtual Internship", description := "D",
    duration_weeks := 6, status := "active", progress := 0 }

/-- Fixture store: submissions scored 80, 90, 100 plus one null score. -/
def dbC3 : DB :=
  { profiles := [profAlice], industries := [indFintech], companies := [],
    internships := [trackC3],
    tasks := [taskC3 41, taskC3 42, taskC3 43, taskC3 44],
    submissions := [subC3 50 41 (some 80), subC3 51 42 (some 90),
                    subC3 52 43 (some 100), subC3 53 44 none],
    certificates := [], nextId := 60 }

/-- Fixture store: only null-score submissions. -/
def dbC3n : DB :=
  { dbC3 with submissions := [subC3 50 41 none, subC3 53 44 none] }

/-- Fixture: an internship owned by user 2, with one task and one
submission, for cross-user access checks by user 1. -/
def trackC5 : models.InternshipTrack :=
  { id := 60, industry_id := 1, user_id := 2, company_id := none,
    title := "Finance Virtual Internship", description := "D",
    duration_weeks := 6, status := "active", progress := 0 }

/-- Fixture: user 2's task. -/
def taskC5 : models.Task :=
  { id := 61, internship_id := 60, title := "T", description := "D",
    instructions := "I", difficulty := "medium", points := 100,
    status := "pending" }

/-- Fixture: user 2's submission. -/
def subC5 : models.Submission :=
  { id := 62, task_id := 61, user_id := 2, content := "w", file_urls := none,
    score := none, feedback := none, evaluated := false }

/-- Fixture store for the ownership scenario. -/
def dbC5 : DB :=
  { profiles := [profAlice, profBob], industries := [indFintech],
    companies := [], internships := [trackC5], tasks := [taskC5],
    submissions := [subC5], certificates := [], nextId := 70 }

/-- Fixture: a task already evaluated, owned by user 1 via internship 70. -/
def trackC8 : models.InternshipTrack :=
  { id := 70, industry_id := 1, user_id := 1, company_id := none,
    title := "Fintech Virtual Internship", description := "D",
    duration_weeks := 6, status := "active", progress := 0 }

/-- Fixture: the evaluated task resubmitted in the C8 scenario. -/
def taskC8 : models.Task :=
  { id := 71, internship_id := 70, title := "T", description := "D",
    instructions := "I", difficulty := "medium", points := 100,
    status := "evaluated" }

/-- Fixture store for the resubmission scenario. -/
def dbC8 : DB :=
  { profiles := [profAlice], industries := [indFintech], companies := [],
    internships := [trackC8], tasks := [taskC8], submissions := [],
    certificates := [], nextId := 80 }

/-- Fixture: an orphaned certificate for internship 20 (status still
active), reaching the return-existing-certificate branch. -/
def certC1 : models.Certificate :=
  { id := 25, internship_id := 20, user_id := 1, title := "Tc",
    description := "Dc", score := 0, skills_acquired := "S" }

/-- Fixture store: active internship with an existing certificate. -/
def dbC1w : DB := { dbC1 with certificates := [certC1] }

/-- Fixture: internship 20 already marked completed. -/
def trackC1done : models.InternshipTrack := { trackC1 with status := "completed" }

/-- Fixture store: completed internship. -/
def dbC1done : DB := { dbC1 with internships := [trackC1done] }

/-- A PUT body with no profile fields at all (the empty JSON object). -/
def emptyProfileBody : auth.ProfileBody :=
  { full_name := none, major := none, university := none,
    career_interests := none, graduation_year := none, bio := none }

/-- C4 (counterexample): with the external call configured and returning a
parseable descriptor list, `generate_tasks` for week 1 returns that list
as-is — here a single descriptor with difficulty outside
{easy, medium, hard} and points outside [50, 200] — so the claimed shape
does not hold on the external path. -/
theorem C4_counterexample :
    azure_services.generate_tasks true (some [badTaskDict]) "T" "Technology & IT" "CS" 1 =
      [badTaskDict] ∧
    (azure_services.generate_tasks true (some [badTaskDict]) "T" "Technology & IT" "CS" 1).length ≠ 3 ∧
    goodTaskDict badTaskDict = false := by
  refine ⟨rfl, by decide, by decide⟩

/-- C4 (amended): on the fallback path — OpenAI unconfigured, or the
external call/parse failed — `generate_tasks` returns exactly 3 task
descriptors for week 1 and exactly 2 otherwise, each with difficulty in
{easy, medium, hard} and points in [50, 200]; the same shape holds for
`supervisor_service.generate_fallback_tasks`.  Results of a successful
external call are returned without validation. -/
theorem C4_amended (industry major title : String) (week : Int)
    (ext : Option (List TaskDict)) :
    ((azure_services.generate_tasks false ext title industry major week).length =
        (if week = 1 then 3 else 2) ∧
      (azure_services.generate_tasks false ext title industry major week).all
        goodTaskDict = true) ∧
    ((azure_services.generate_tasks true none title industry major week).length =
        (if week = 1 then 3 else 2) ∧
      (azure_services.generate_tasks true none title industry major week).all
        goodTaskDict = true) ∧
    ((supervisor_service.generate_fallback_tasks industry week).length =
        (if week = 1 then 3 else 2) ∧
      (supervisor_service.generate_fallback_tasks industry week).all
        goodTaskDict = true) := by
  by_cases h : week = 1 <;>
    simp [azure_services.generate_tasks, azure_services.default_tasks,
      supervisor_service.generate_fallback_tasks, goodTaskDict, h]

/-- C6 (counterexample): with the external call configured and returning a
parseable internship dict, `generate_internship` returns it as-is — here
with an empty title and duration_weeks = 99 ∉ [4, 12] — so the claimed
bounds do not hold on the external path. -/
theorem C6_counterexample :
    azure_services.generate_internship true (some badInternshipDict)
        "Technology & IT" "CS" "AI" = badInternshipDict ∧
    badInternshipDict.title = some "" ∧
    badInternshipDict.duration_weeks = some 99 := by
  exact ⟨rfl, rfl, rfl⟩

/-- C6 (amended): on the fallback path — OpenAI unconfigured, or the
external call/parse failed — `generate_internship` returns the templated
fallback, whose title and description are non-empty and whose
duration_weeks is 6 ∈ [4, 12]; results of a successful external call are
returned without validation. -/
theorem C6_amended (industry major interests : String)
    (ext : Option InternshipDict) :
    (azure_services.generate_internship false ext industry major interests =
        azure_services.fallback_internship industry major interests) ∧
    (azure_services.generate_internship true none industry major interests =
        azure_services.fallback_internship industry major interests) ∧
    ((azure_services.fallback_internship industry major interests).title.getD "").length > 0 ∧
    ((azure_services.fallback_internship industry major interests).description.getD "").length > 0 ∧
    (azure_services.fallback_internship industry major interests).duration_weeks = some 6 ∧
    ((4 : Int) ≤ 6 ∧ (6 : Int) ≤ 12) := by
  refine ⟨rfl, rfl, ?_, ?_, rfl, by norm_num⟩
  · simp [azure_services.fallback_internship, String.length_append]
    right; decide
  · simp [azure_services.fallback_internship, String.length_append]
    left; left; left; left; left; left; decide

/-- C7 (counterexample): the fallback certificate built by
`azure_services.generate_certificate` — the function
`complete_internship` actually calls — contains no performance-tier word
in its description even for avg_score = 95 ≥ 90, where the claim requires
the word "excellent". -/
theorem C7_counterexample :
    containsWord
      (((azure_services.generate_certificate false none "Alice Lee"
          "Fintech Analytics Intern" "Fintech" 3 95).description).getD "")
      "excellent" = false ∧
    (95 : ℚ) ≥ 90 := by
  exact ⟨by decide, by norm_num⟩

/-- C7 (amended): the tier narration belongs to
`supervisor_service.generate_fallback_certificate`: its description
interpolates `performance_level avg_score`, which is "excellent" for
avg ≥ 90, "strong" for 80 ≤ avg < 90, "good" for 70 ≤ avg < 80 and
"satisfactory" below 70.  The `azure_services.generate_certificate`
fallback used by `complete_internship` narrates no tier (see the
counterexample). -/
theorem C7_amended (user_name internship_title industry : String)
    (avg_score : ℚ) :
    (supervisor_service.generate_fallback_certificate user_name
        internship_title industry avg_score).description =
      some (supervisor_service.cert_description user_name internship_title
        industry (supervisor_service.performance_level avg_score) avg_score) ∧
    (90 ≤ avg_score →
      supervisor_service.performance_level avg_score = "excellent") ∧
    (80 ≤ avg_score → avg_score < 90 →
      supervisor_service.performance_level avg_score = "strong") ∧
    (70 ≤ avg_score → avg_score < 80 →
      supervisor_service.performance_level avg_score = "good") ∧
    (avg_score < 70 →
      supervisor_service.performance_level avg_score = "satisfactory") := by
  refine ⟨rfl, ?_, ?_, ?_, ?_⟩ <;>
    · intros
      simp only [supervisor_service.performance_level]
      split_ifs <;> first | rfl | linarith

/-- Witness for C7_amended at concrete scores in each tier. -/
theorem C7_amended_witness :
    supervisor_service.performance_level 95 = "excellent" ∧
    supervisor_service.performance_level 85 = "strong" ∧
    supervisor_service.performance_level 75 = "good" ∧
    supervisor_service.performance_level 50 = "satisfactory" :=
  ⟨(C7_amended "A" "B" "C" 95).2.1 (by norm_num),
   (C7_amended "A" "B" "C" 85).2.2.1 (by norm_num) (by norm_num),
   (C7_amended "A" "B" "C" 75).2.2.2.1 (by norm_num) (by norm_num),
   (C7_amended "A" "B" "C" 50).2.2.2.2 (by norm_num)⟩

/-- C1 (counterexample): on a store with an active internship and no
certificate, a first call to complete_internship succeeds and issues
certificate 30; the immediate second call on the resulting store returns
the 400 already-completed error — not the existing certificate id —
because the status check precedes the existing-certificate check. -/
theorem C1_counterexample :
    (internships.complete_internship true (some extCertOK) 1 20 dbC1).1 =
      .completed 30 "Certificate of Completion: Fintech Virtual Internship"
        0 "Analysis, Research" ∧
    (internships.complete_internship true (some extCertOK) 1 20
        (internships.complete_internship true (some extCertOK) 1 20 dbC1).2).1 =
      .alreadyCompleted := by
  exact ⟨rfl, rfl⟩

/-- C1 (amended): complete_internship returns the existing certificate id
(200, creating no second row and changing nothing) only when a certificate
exists while the internship status is not yet "completed"; once the status
is "completed" — in particular after any successful completion, which sets
it — a repeat call returns the 400 already-completed error instead. -/
theorem C1_amended :
    (∀ (cfg : Bool) (ext : Option CertificateDict) (uid iid : Nat) (db : DB)
       (it : models.InternshipTrack) (c : models.Certificate),
      db.findInternship iid = some it → it.user_id = uid →
      ¬ it.status = "completed" →
      db.findCertificateByInternship it.id = some c →
      internships.complete_internship cfg ext uid iid db =
        (.alreadyCertificate c.id, db)) ∧
    (∀ (cfg : Bool) (ext : Option CertificateDict) (uid iid : Nat) (db : DB)
       (it : models.InternshipTrack),
      db.findInternship iid = some it → it.user_id = uid →
      it.status = "completed" →
      internships.complete_internship cfg ext uid iid db =
        (.alreadyCompleted, db)) := by
  constructor
  · intro cfg ext uid iid db it c h1 h2 h3 h4
    simp [internships.complete_internship, h1, h2, h3, h4]
  · intro cfg ext uid iid db it h1 h2 h3
    simp [internships.complete_internship, h1, h2, h3]

/-- Witness for C1_amended on concrete stores. -/
theorem C1_amended_witness :
    internships.complete_internship false none 1 20 dbC1w =
      (.alreadyCertificate 25, dbC1w) ∧
    internships.complete_internship false none 1 20 dbC1done =
      (.alreadyCompleted, dbC1done) :=
  ⟨C1_amended.1 false none 1 20 dbC1w trackC1 certC1 rfl rfl (by decide) rfl,
   C1_amended.2 false none 1 20 dbC1done trackC1done rfl rfl rfl⟩

/-- C2: with generation entirely disabled (no credentials), start and
submit succeed on fallback content, but complete_internship does NOT
succeed: it reads `certificate_data['skills']` while the fallback dict
only carries the key `skills_acquired`, so the row construction raises
`KeyError` and no Certificate row is created — the claimed end-to-end
success fails at the final step. -/
theorem C2_lifecycle :
    startC2.1 = .started 10 "Fintech Virtual Internship" 6 ∧
    (startC2.2.tasks.map (·.id)) = [11, 12, 13] ∧
    submitC2.1 = .created 14 11 ∧
    completeC2.1 = .serverError ∧
    completeC2.2 = submitC2.2 ∧
    completeC2.2.certificates = [] ∧
    (azure_services.generate_certificate false none "Alice Lee"
        "Fintech Virtual Internship" "Fintech" 0 0).skills = none ∧
    ((azure_services.generate_certificate false none "Alice Lee"
        "Fintech Virtual Internship" "Fintech" 0 0).skills_acquired).isSome = true := by
  exact ⟨rfl, rfl, rfl, rfl, rfl, rfl, rfl, rfl⟩

/-- C3: avg_score is the arithmetic mean of exactly the calling user's
non-null-score submissions of the internship: scores [80, 90, 100] plus a
null-score submission give 90 (the null one excluded from numerator and
denominator — appending any null-score submission to any store never
changes avg_score), and with no scored submissions avg_score is 0. -/
theorem C3_avg_score :
    internships.completed_submissions dbC3 1 40 =
      [subC3 50 41 (some 80), subC3 51 42 (some 90), subC3 52 43 (some 100)] ∧
    internships.avg_score dbC3 1 40 = 90 ∧
    internships.avg_score dbC3n 1 40 = 0 ∧
    (∀ (db : DB) (uid iid : Nat) (s : models.Submission),
      internships.avg_score
        { db with submissions := db.submissions ++ [{ s with score := none }] }
        uid iid =
      internships.avg_score db uid iid) := by
  refine ⟨rfl, ?_, rfl, ?_⟩
  · have h : internships.completed_submissions dbC3 1 40 =
      [subC3 50 41 (some 80), subC3 51 42 (some 90), subC3 52 43 (some 100)] := rfl
    rw [internships.avg_score, h]
    norm_num [subC3, List.filterMap]
  · intro db uid iid s
    have h : ∀ dbx : DB,
        internships.completed_submissions
          { dbx with submissions := dbx.submissions ++ [{ s with score := none }] }
          uid iid = internships.completed_submissions dbx uid iid := by
      intro dbx
      simp [internships.completed_submissions, List.filter_append]
    rw [internships.avg_score, internships.avg_score, h]

/-- C5: every read or mutation endpoint on an entity not owned by the
caller answers 403 before returning entity data or changing state: the
forbidden responses carry no entity payload, the store is returned
unchanged, and in particular a non-owner submit_task creates no Submission
row and leaves the task status untouched. -/
theorem C5_ownership :
    (∀ (uid iid : Nat) (db : DB) (it : models.InternshipTrack),
      db.findInternship iid = some it → it.user_id ≠ uid →
      internships.get_internship uid iid db = .forbidden) ∧
    (∀ (cfg : Bool) (ext : Option CertificateDict) (uid iid : Nat) (db : DB)
       (it : models.InternshipTrack),
      db.findInternship iid = some it → it.user_id ≠ uid →
      internships.complete_internship cfg ext uid iid db = (.forbidden, db)) ∧
    (∀ (uid tid : Nat) (db : DB) (t : models.Task)
       (it : models.InternshipTrack),
      db.findTask tid = some t → db.findInternship t.internship_id = some it →
      it.user_id ≠ uid →
      tasks.get_task uid tid db = .forbidden) ∧
    (∀ (uid tid : Nat) (content file_urls : Option String) (db : DB)
       (t : models.Task) (it : models.InternshipTrack),
      db.findTask tid = some t → db.findInternship t.internship_id = some it →
      it.user_id ≠ uid →
      tasks.submit_task uid tid content file_urls db = (.forbidden, db)) ∧
    (∀ (uid sid : Nat) (db : DB) (s : models.Submission),
      db.findSubmission sid = some s → s.user_id ≠ uid →
      tasks.get_submission uid sid db = .forbidden) := by
  refine ⟨?_, ?_, ?_, ?_, ?_⟩
  · intro uid iid db it h1 h2
    simp [internships.get_internship, h1, h2]
  · intro cfg ext uid iid db it h1 h2
    simp [internships.complete_internship, h1, h2]
  · intro uid tid db t it h1 h2 h3
    simp [tasks.get_task, h1, h2, h3]
  · intro uid tid content file_urls db t it h1 h2 h3
    simp [tasks.submit_task, h1, h2, h3]
  · intro uid sid db s h1 h2
    simp [tasks.get_submission, h1, h2]

/-- Witness for C5_ownership: user 1 probes all five endpoints on
user 2's entities. -/
theorem C5_ownership_witness :
    internships.get_internship 1 60 dbC5 = .forbidden ∧
    internships.complete_internship false none 1 60 dbC5 = (.forbidden, dbC5) ∧
    tasks.get_task 1 61 dbC5 = .forbidden ∧
    tasks.submit_task 1 61 (some "w") none dbC5 = (.forbidden, dbC5) ∧
    tasks.get_submission 1 62 dbC5 = .forbidden :=
  ⟨C5_ownership.1 1 60 dbC5 trackC5 rfl (by decide),
   C5_ownership.2.1 false none 1 60 dbC5 trackC5 rfl (by decide),
   C5_ownership.2.2.1 1 61 dbC5 taskC5 trackC5 rfl rfl (by decide),
   C5_ownership.2.2.2.1 1 61 (some "w") none dbC5 taskC5 trackC5 rfl rfl
     (by decide),
   C5_ownership.2.2.2.2 1 62 dbC5 subC5 rfl (by decide)⟩

/-- C8: a successful submit_task sets the task's status to "submitted"
unconditionally — the update does not inspect the prior status, so a task
already "evaluated" moves back to "submitted" — and appends exactly one
new Submission row with null score and feedback. -/
theorem C8_submit_overwrites_status :
    ∀ (uid tid : Nat) (c : String) (furl : Option String) (db : DB)
      (t : models.Task) (it : models.InternshipTrack),
      db.findTask tid = some t →
      db.findInternship t.internship_id = some it →
      it.user_id = uid →
      (tasks.submit_task uid tid (some c) furl db).1 = .created db.nextId t.id ∧
      (tasks.submit_task uid tid (some c) furl db).2.tasks =
        db.tasks.map (fun x =>
          if x.id == t.id then { x with status := "submitted" } else x) ∧
      (tasks.submit_task uid tid (some c) furl db).2.submissions =
        db.submissions ++
          [{ id := db.nextId, task_id := t.id, user_id := uid, content := c,
             file_urls := furl, score := none, feedback := none,
             evaluated := false }] := by
  intro uid tid c furl db t it h1 h2 h3
  refine ⟨?_, ?_, ?_⟩ <;> simp [tasks.submit_task, h1, h2, h3]

/-- Witness for C8 on a task whose status is already "evaluated". -/
theorem C8_submit_witness :
    (tasks.submit_task 1 71 (some "retry") none dbC8).1 = .created 80 71 ∧
    (tasks.submit_task 1 71 (some "retry") none dbC8).2.tasks =
      [{ taskC8 with status := "submitted" }] ∧
    taskC8.status = "evaluated" := by
  have h := C8_submit_overwrites_status 1 71 "retry" none dbC8 taskC8 trackC8
    rfl rfl rfl
  exact ⟨h.1, by rw [h.2.1]; rfl, rfl⟩

/-- C9: every PUT to the profile endpoint returns profile_completed = true;
with the empty body the stored profile changes only in its completed flag
(absent fields keep their values); and no other state-mutating operation
(start_internship, complete_internship, submit_task) ever touches the
profiles table, so the flag is never reset to false. -/
theorem C9_profile_completed :
    (∀ (uid : Nat) (body : auth.ProfileBody) (db : DB)
       (p : models.UserProfile),
      db.findProfile uid = some p →
      (auth.profile_put uid body db).1 = .updated true) ∧
    (∀ (uid : Nat) (db : DB) (p : models.UserProfile),
      db.findProfile uid = some p →
      (auth.profile_put uid emptyProfileBody db).2.profiles =
        db.profiles.map (fun q =>
          if q.user_id == uid then { p with profile_completed := true }
          else q)) ∧
    (∀ (cfg : Bool) (extI : Option InternshipDict)
       (extT : Option (List TaskDict)) (uid iid : Nat) (cid : Option Nat)
       (db : DB),
      (internships.start_internship cfg extI extT uid iid cid db).2.profiles =
        db.profiles) ∧
    (∀ (cfg : Bool) (ext : Option CertificateDict) (uid iid : Nat) (db : DB),
      (internships.complete_internship cfg ext uid iid db).2.profiles =
        db.profiles) ∧
    (∀ (uid tid : Nat) (content furl : Option String) (db : DB),
      (tasks.submit_task uid tid content furl db).2.profiles = db.profiles) := by
  refine ⟨?_, ?_, ?_, ?_, ?_⟩
  · intro uid body db p h
    simp [auth.profile_put, h]
  · intro uid db p h
    simp [auth.profile_put, h, auth.getOr, emptyProfileBody]
  · intro cfg extI extT uid iid cid db
    unfold internships.start_internship
    repeat' (first | split | dsimp only)
  · intro cfg ext uid iid db
    unfold internships.complete_internship
    repeat' (first | split | dsimp only)
  · intro uid tid content furl db
    unfold tasks.submit_task
    repeat' (first | split | dsimp only)

/-- Witness for C9 on a concrete store with an empty PUT body. -/
theorem C9_profile_witness :
    (auth.profile_put 1 emptyProfileBody dbC2).1 = .updated true ∧
    (auth.profile_put 1 emptyProfileBody dbC2).2.profiles =
      dbC2.profiles.map (fun q =>
        if q.user_id == 1 then { profAlice with profile_completed := true }
        else q) :=
  ⟨C9_profile_completed.1 1 emptyProfileBody dbC2 profAlice rfl,
   C9_profile_completed.2.1 1 dbC2 profAlice rfl⟩

/-- The task-creation loop fails as soon as any descriptor misses a
required key. -/
theorem build_tasks_none_of_any (l : List TaskDict)
    (h : l.any (fun d => (internships.build_task d).isNone) = true) :
    internships.build_tasks l = none := by
  induction l with
  | nil => simp at h
  | cons d ds ih =>
    simp only [List.any_cons, Bool.or_eq_true] at h
    rcases h with h | h
    · rw [internships.build_tasks]
      cases hb : internships.build_task d
      · cases internships.build_tasks ds <;> rfl
      · rw [hb] at h; simp at h
    · rw [internships.build_tasks, ih h]
      cases internships.build_task d <;> rfl

/-- C10: start_internship is atomic: when any generated task descriptor
lacks a required key, the request fails with an unhandled KeyError and the
store is returned exactly as it was — no InternshipTrack row and no Task
row is persisted, because the only commit happens after all tasks are
added. -/
theorem C10_atomic :
    ∀ (extI : Option InternshipDict) (l : List TaskDict) (uid iid : Nat)
      (db : DB) (prof : models.UserProfile) (ind : models.Industry),
      db.findProfile uid = some prof →
      prof.profile_completed = true →
      db.findIndustry iid = some ind →
      l.any (fun d => (internships.build_task d).isNone) = true →
      internships.start_internship true extI (some l) uid iid none db =
        (.serverError, db) := by
  intro extI l uid iid db prof ind h1 h2 h3 h4
  have hb := build_tasks_none_of_any l h4
  cases extI with
  | none =>
    simp [internships.start_internship, h1, h2, h3,
      azure_services.generate_internship, azure_services.fallback_internship,
      azure_services.generate_tasks, hb]
  | some d =>
    rcases d with ⟨t, de, du⟩
    cases t <;> cases de <;> cases du <;>
      simp [internships.start_internship, h1, h2, h3,
        azure_services.generate_internship, azure_services.generate_tasks, hb]

/-- Witness for C10: a descriptor without a title leaves the store
untouched. -/
theorem C10_atomic_witness :
    internships.start_internship true none (some [taskDictNoTitle]) 1 1 none
      dbC2 = (.serverError, dbC2) :=
  C10_atomic none [taskDictNoTitle] 1 1 dbC2 profAlice indFintech rfl rfl rfl
    (by decide)
